import Mathlib

/-!
Verification of the chrome-snapper capture orchestrator
(src/chrome-snapper/background.js).

The development shallowly embeds the stateful subsystems of the
background service worker:

* the rate-limited full-page capture engine (`captureFullPage` and its
  retry loop around the screen-capture primitive),
* the WebSocket remote command channel (`connectWebSocket`,
  `disconnectWebSocket`, `scheduleReconnect`) as a state machine over
  explicit socket and timer resources, and
* the command dispatcher (`handleWsCommand`, `captureTabScreenshot`).

Asynchronous primitives (the capture call, batch POST, scroll reset,
in-page script execution) are passed in as oracles describing how each
invocation resolves or rejects; the embedding records the externally
visible calls in an explicit event trace so that claims about ordering
and about which side effects happen can be stated and proved.
-/

namespace Snapper

/-! ## Capture engine: data model -/

/-- One captured tile, as pushed onto the `tiles` array in
`captureFullPage` (background.js lines 411-415), together with the
grid position and 1-based sequence index it was produced at. -/
structure Tile where
  index : Nat
  col : Nat
  row : Nat
  text : String
  image : Option String
  hidden : Bool
  deriving DecidableEq, Repr

/-- Inputs of one capture run: the page and viewport dimensions returned
by the `getPageDimensions` query, the optional text annotation and the
visibility flag (background.js lines 329-334). -/
structure EngineConfig where
  pageWidth : Nat
  pageHeight : Nat
  viewportWidth : Nat
  viewportHeight : Nat
  textMessage : Option String
  hidden : Bool
  deriving DecidableEq, Repr

/-- Externally visible actions of the capture engine, in the order the
code performs them. `captureCall` is one invocation of
`chrome.tabs.captureVisibleTab`; `submitBatch n` is the single POST of a
batch of `n` tiles; `resetScroll` is the `resetScroll` message to the tab. -/
inductive EngineEvent
  | progress (current total : Nat)
  | scrollTo (x y : Nat)
  | sleepMs (ms : Nat)
  | captureCall
  | submitBatch (n : Nat)
  | resetScroll
  deriving DecidableEq, Repr

/-- Errors the engine run can end with, mirroring the exceptions that
propagate out of `captureFullPage`. -/
inductive EngineError
  | rateLimitExceeded
  | captureError (msg : String)
  | submitError (msg : String)
  | resetError (msg : String)
  deriving DecidableEq, Repr

/-- How one invocation of the capture primitive resolves: a data URL,
a rejection whose message contains MAX_CAPTURE_VISIBLE_TAB_CALLS_PER_SECOND,
or a rejection with any other message. -/
inductive CapResult
  | ok (dataUrl : String)
  | rateLimited
  | failed (msg : String)
  deriving DecidableEq, Repr

/-- JavaScript `Math.ceil(a / b)` on nonnegative integers with `b > 0`. -/
def ceilDiv (a b : Nat) : Nat := (a + b - 1) / b

/-- The per-tile descriptive text (background.js lines 406-408):
with an annotation the text is the annotation followed by
a bracketed Tile index/total at col,row suffix, otherwise just
Tile index/total at col,row. -/
def tileText (textMessage : Option String) (idx total col row : Nat) : String :=
  let base := "Tile " ++ toString idx ++ "/" ++ toString total ++ " at "
    ++ toString col ++ "," ++ toString row
  match textMessage with
  | some msg => msg ++ " [" ++ base ++ "]"
  | none => base

/-- JavaScript `dataUrl.split(',')[1]` (background.js line 403): the
second comma-separated segment, or `none` when the string has fewer
than two segments (JS `undefined`). -/
def splitBase64 (dataUrl : String) : Option String :=
  ((dataUrl.toList.splitOn ',').map List.asString).get? 1

/-- The retry loop around `chrome.tabs.captureVisibleTab`
(background.js lines 378-400).  `cap` tells how the n-th capture call
of the run resolves; `callNo` is the number of capture calls made so
far; the `Nat` argument is the remaining value of the `retries`
counter (the loop is entered with `retries = 3`).  Returns the events
performed, the updated call count, and either the captured data URL or
the propagated error.  The fuel-0 case corresponds to the while-guard
failing, which is unreachable from the entry value 3 because the loop
always exits by `break` or `throw` first. -/
def retryLoop (cap : Nat → CapResult) (callNo : Nat) :
    Nat → List EngineEvent × Nat × Except EngineError String
  | 0 => ([], callNo, .error .rateLimitExceeded)
  | retries + 1 =>
    match cap callNo with
    | .ok d => ([.captureCall], callNo + 1, .ok d)
    | .failed msg => ([.captureCall], callNo + 1, .error (.captureError msg))
    | .rateLimited =>
      -- retries-- has happened: remaining value is `retries`
      if retries > 0 then
        let r := retryLoop cap (callNo + 1) retries
        (.captureCall :: .sleepMs 1000 :: r.1, r.2.1, r.2.2)
      else
        ([.captureCall], callNo + 1, .error .rateLimitExceeded)

/-- The grid cells in the order of the nested loops of background.js
lines 347-348: `row` outer over `0..tilesY-1`, `col` inner over
`0..tilesX-1`, each cell as `(col, row)`. -/
def cellsList (tilesX tilesY : Nat) : List (Nat × Nat) :=
  (List.range tilesY).flatMap fun row => (List.range tilesX).map fun col => (col, row)

/-- The body of the nested capture loops (background.js lines 347-417),
run over a list of remaining grid cells.  `tileIndex` is the value of
the `tileIndex` counter before the next cell (incremented at the top of
each iteration), `callNo` threads the capture-call count into
`retryLoop`.  Produces the event trace, the final call count, and either
the list of tiles pushed or the error that aborted the loop. -/
def captureCells (cap : Nat → CapResult) (cfg : EngineConfig) (totalTiles : Nat) :
    List (Nat × Nat) → Nat → Nat → List EngineEvent × Nat × Except EngineError (List Tile)
  | [], _, callNo => ([], callNo, .ok [])
  | (col, row) :: rest, tileIndex, callNo =>
    let idx := tileIndex + 1
    let pre : List EngineEvent :=
      [.progress idx totalTiles,
       .scrollTo (col * cfg.viewportWidth) (row * cfg.viewportHeight),
       .sleepMs 600]
    match retryLoop cap callNo 3 with
    | (evs, callNo1, .error e) => (pre ++ evs, callNo1, .error e)
    | (evs, callNo1, .ok dataUrl) =>
      let tile : Tile :=
        { index := idx, col := col, row := row,
          text := tileText cfg.textMessage idx totalTiles col row,
          image := splitBase64 dataUrl, hidden := cfg.hidden }
      match captureCells cap cfg totalTiles rest idx callNo1 with
      | (evs2, callNo2, .error e) => (pre ++ evs ++ evs2, callNo2, .error e)
      | (evs2, callNo2, .ok tiles) => (pre ++ evs ++ evs2, callNo2, .ok (tile :: tiles))

/-- The whole capture run (background.js lines 320-434) after the
dimension query succeeded with the dimensions recorded in `cfg`.
`submit` tells how the single `sendTilesToEndpoint` POST resolves
(`none` = HTTP 2xx), `reset` how the `resetScroll` message resolves.
On success the run returns the submitted batch and the tile count; any
error is rethrown by the catch block as-is, with no further events. -/
def captureFullPage (cap : Nat → CapResult) (submit : List Tile → Option String)
    (reset : Option String) (cfg : EngineConfig) :
    List EngineEvent × Except EngineError (List Tile × Nat) :=
  let tilesY := ceilDiv cfg.pageHeight cfg.viewportHeight
  let tilesX := ceilDiv cfg.pageWidth cfg.viewportWidth
  let totalTiles := tilesY * tilesX
  match captureCells cap cfg totalTiles (cellsList tilesX tilesY) 0 0 with
  | (evs, _, .error e) => (evs, .error e)
  | (evs, _, .ok tiles) =>
    match submit tiles with
    | some msg => (evs ++ [.submitBatch tiles.length], .error (.submitError msg))
    | none =>
      match reset with
      | some msg =>
        (evs ++ [.submitBatch tiles.length, .resetScroll], .error (.resetError msg))
      | none =>
        (evs ++ [.submitBatch tiles.length, .resetScroll], .ok (tiles, totalTiles))

/-- Number of capture-primitive invocations in a trace. -/
def countCaptureCalls : List EngineEvent → Nat
  | [] => 0
  | .captureCall :: rest => countCaptureCalls rest + 1
  | _ :: rest => countCaptureCalls rest

/-- Events emitted inside the per-cell loop (everything except the
batch submission and the scroll reset). -/
def isCellEvent : EngineEvent → Bool
  | .progress _ _ => true
  | .scrollTo _ _ => true
  | .sleepMs _ => true
  | .captureCall => true
  | .submitBatch _ => false
  | .resetScroll => false

/-- The batch a fully successful run of the capture loops produces,
stated as a recursion over the remaining grid cells: the cell at list
position `k` yields the tile with index `tileIndex + k + 1` and the
image captured by call `callNo + k`.  Used to characterise
`captureCells` when every capture call succeeds. -/
def okTiles (cfg : EngineConfig) (totalTiles : Nat) (data : Nat → String) :
    List (Nat × Nat) → Nat → Nat → List Tile
  | [], _, _ => []
  | (col, row) :: rest, tileIndex, callNo =>
    { index := tileIndex + 1, col := col, row := row,
      text := tileText cfg.textMessage (tileIndex + 1) totalTiles col row,
      image := splitBase64 (data callNo), hidden := cfg.hidden } ::
      okTiles cfg totalTiles data rest (tileIndex + 1) (callNo + 1)

/-- A 100 by 100 page in a 100 by 100 viewport: the degenerate one-cell
grid, used for concrete runs. -/
def cfg1 : EngineConfig :=
  { pageWidth := 100, pageHeight := 100, viewportWidth := 100, viewportHeight := 100,
    textMessage := none, hidden := false }

/-- The spec's worked example: page 1920 by 3000, viewport 1920 by 1000. -/
def cfgSpec : EngineConfig :=
  { pageWidth := 1920, pageHeight := 3000, viewportWidth := 1920, viewportHeight := 1000,
    textMessage := none, hidden := false }

/-- A 200 by 200 page in a 100 by 100 viewport (a 2 by 2 grid) with the
annotation hi. -/
def cfg2x2 : EngineConfig :=
  { pageWidth := 200, pageHeight := 200, viewportWidth := 100, viewportHeight := 100,
    textMessage := some "hi", hidden := false }

/-- The batch the 2 by 2 run produces when every capture yields the
data URL d,QUJD. -/
def tiles2x2 : List Tile :=
  [{ index := 1, col := 0, row := 0, text := "hi [Tile 1/4 at 0,0]",
     image := some "QUJD", hidden := false },
   { index := 2, col := 1, row := 0, text := "hi [Tile 2/4 at 1,0]",
     image := some "QUJD", hidden := false },
   { index := 3, col := 0, row := 1, text := "hi [Tile 3/4 at 0,1]",
     image := some "QUJD", hidden := false },
   { index := 4, col := 1, row := 1, text := "hi [Tile 4/4 at 1,1]",
     image := some "QUJD", hidden := false }]

/-- The one-tile batch of a successful run on `cfg1`. -/
def tiles1 : List Tile :=
  [{ index := 1, col := 0, row := 0, text := "Tile 1/1 at 0,0",
     image := some "QUJD", hidden := false }]

/-- A capture oracle that always succeeds with the data URL d,QUJD. -/
def capOK : Nat → CapResult := fun _ => .ok "d,QUJD"

/-! ## Remote command channel: data model

The module-level mutable state of background.js lines 7-11 (`ws`,
`wsUrl`, `reconnectAttempts`, `reconnectTimeout`, `isConnecting`) plus
the external resources those variables point at: every WebSocket object
ever created (identified by creation order, with its current ready
state) and every `setTimeout` timer created by `scheduleReconnect` and
not yet fired or cancelled.  Tracking the resources separately from the
variables is what lets stale handler firings be modelled: a socket's
`onclose` closure survives the reassignment of `ws`, and a timer keeps
running after `reconnectTimeout` stops pointing at it. -/

/-- Ready state of one WebSocket object: `connecting` after creation,
`opened` after its open event, `closing` after `close()` was called on
it, `done` once its close event has been delivered. -/
inductive SockState
  | connecting
  | opened
  | closing
  | done
  deriving DecidableEq, Repr

/-- The channel state: the five module-level variables and the socket
and timer resources.  `sockState` maps a socket id (its position) to
its ready state; `pendingTimers` lists the timers created and neither
fired nor cancelled; `nextTimer` numbers timers in creation order;
`scheduledDelays` logs the delay passed to each `setTimeout` call made
by `scheduleReconnect`. -/
structure Channel where
  wsUrl : Option String
  ws : Option Nat
  reconnectAttempts : Nat
  reconnectTimeout : Option Nat
  isConnecting : Bool
  sockState : List SockState
  pendingTimers : List Nat
  nextTimer : Nat
  scheduledDelays : List Nat
  deriving DecidableEq, Repr

/-- The state at service-worker start: no URL, no socket, no timer. -/
def initChannel : Channel :=
  { wsUrl := none, ws := none, reconnectAttempts := 0, reconnectTimeout := none,
    isConnecting := false, sockState := [], pendingTimers := [], nextTimer := 0,
    scheduledDelays := [] }

/-- Ready state of socket `sid`, if that socket exists. -/
def sockAt (s : Channel) (sid : Nat) : Option SockState := s.sockState.get? sid

/-- Whether an optional socket state is OPEN. -/
def isOpenSock : Option SockState → Bool
  | some .opened => true
  | _ => false

/-- Whether an optional socket state is CONNECTING (its open event can
still fire). -/
def isConnectingSock : Option SockState → Bool
  | some .connecting => true
  | _ => false

/-- Whether a socket's close event can still fire: it exists and its
close event has not been delivered yet. -/
def canClose : Option SockState → Bool
  | some .connecting => true
  | some .opened => true
  | some .closing => true
  | _ => false

/-- Whether a socket's error event can fire. -/
def canErr : Option SockState → Bool
  | some .connecting => true
  | some .opened => true
  | _ => false

/-- The guard `ws && ws.readyState === WebSocket.OPEN` of
background.js line 51. -/
def wsIsOpen (s : Channel) : Bool :=
  match s.ws with
  | some sid => isOpenSock (sockAt s sid)
  | none => false

/-- `scheduleReconnect` (background.js lines 126-139): no-op without a
stored URL; otherwise computes `delay = min(1000 * 2^reconnectAttempts,
30000)`, increments the attempt counter, and creates a new timer whose
handle overwrites `reconnectTimeout` (the previous timer, if any, is
NOT cancelled by this function). -/
def scheduleReconnect (s : Channel) : Channel :=
  match s.wsUrl with
  | none => s
  | some _ =>
    let delay := min (1000 * 2 ^ s.reconnectAttempts) 30000
    { s with reconnectAttempts := s.reconnectAttempts + 1,
             reconnectTimeout := some s.nextTimer,
             pendingTimers := s.pendingTimers ++ [s.nextTimer],
             nextTimer := s.nextTimer + 1,
             scheduledDelays := s.scheduledDelays ++ [delay] }

/-- The `clearTimeout(reconnectTimeout)` block of `disconnectWebSocket`
(background.js lines 113-116): cancels the timer the handle points at,
if any. -/
def clearReconnectTimer (s : Channel) : Channel :=
  match s.reconnectTimeout with
  | some t => { s with pendingTimers := s.pendingTimers.erase t, reconnectTimeout := none }
  | none => s

/-- The `ws.close(); ws = null` block of `disconnectWebSocket`
(background.js lines 119-122): starts the closing handshake of the
current socket (its close event fires later) and drops the reference. -/
def closeCurrentWs (s : Channel) : Channel :=
  match s.ws with
  | some sid => { s with sockState := s.sockState.set sid .closing, ws := none }
  | none => s

/-- `disconnectWebSocket` (background.js lines 112-124): clear the
pending timer handle, reset the attempt counter, close the current
socket if any. -/
def disconnectWebSocket (s : Channel) : Channel :=
  closeCurrentWs { clearReconnectTimer s with reconnectAttempts := 0 }

/-- `connectWebSocket` (background.js lines 49-110): no-op without a
URL, while `isConnecting`, or while the current socket is OPEN;
otherwise creates a new socket in CONNECTING state and points `ws` at
it.  `createOk = false` models `new WebSocket(wsUrl)` throwing, whose
catch block leaves `isConnecting` false again and calls
`scheduleReconnect`. -/
def connectWebSocket (createOk : Bool) (s : Channel) : Channel :=
  if s.wsUrl.isNone || s.isConnecting then s
  else if wsIsOpen s then s
  else if createOk then
    { s with isConnecting := true, ws := some s.sockState.length,
             sockState := s.sockState ++ [.connecting] }
  else
    scheduleReconnect s

/-- The events the channel reacts to: the two popup control messages
(background.js lines 276-291), the per-socket open/close/error handler
firings (lines 59-103), and a reconnect timer firing (lines 135-138). -/
inductive Ev
  | wsConnect (url : String) (createOk : Bool)
  | wsDisconnect
  | openEvt (sid : Nat)
  | closeEvt (sid : Nat)
  | errorEvt (sid : Nat)
  | timerFire (tid : Nat) (createOk : Bool)
  deriving DecidableEq, Repr

/-- When an event can physically occur: control messages always; a
socket's open event only while it is connecting; its close event until
delivered once; its error event while connecting or open; a timer
firing only while that timer is pending. -/
def enabled (s : Channel) : Ev → Bool
  | .wsConnect _ _ => true
  | .wsDisconnect => true
  | .openEvt sid => isConnectingSock (sockAt s sid)
  | .closeEvt sid => canClose (sockAt s sid)
  | .errorEvt sid => canErr (sockAt s sid)
  | .timerFire tid _ => s.pendingTimers.contains tid

/-- The handler run for each event, straight from background.js:
`wsConnect` stores the URL then runs `disconnectWebSocket` and
`connectWebSocket`; `wsDisconnect` clears the URL then runs
`disconnectWebSocket`; a socket's `onopen` clears `isConnecting` and
resets the attempt counter; its `onclose` clears `isConnecting`, nulls
the shared `ws` variable (whichever socket it belongs to) and calls
`scheduleReconnect`; `onerror` clears `isConnecting`; a firing timer
removes itself, nulls the handle and calls `connectWebSocket`. -/
def step (s : Channel) : Ev → Channel
  | .wsConnect url createOk =>
    connectWebSocket createOk (disconnectWebSocket { s with wsUrl := some url })
  | .wsDisconnect => disconnectWebSocket { s with wsUrl := none }
  | .openEvt sid =>
    { s with sockState := s.sockState.set sid .opened,
             isConnecting := false, reconnectAttempts := 0 }
  | .closeEvt sid =>
    scheduleReconnect
      { s with isConnecting := false, ws := none,
               sockState := s.sockState.set sid .done }
  | .errorEvt _ => { s with isConnecting := false }
  | .timerFire tid createOk =>
    connectWebSocket createOk
      { s with pendingTimers := s.pendingTimers.erase tid, reconnectTimeout := none }

/-- Run a sequence of events, failing if any event is not enabled in
the state it would fire in.  A `some` result is a reachable state. -/
def runChecked (s : Channel) : List Ev → Option Channel
  | [] => some s
  | e :: rest => if enabled s e then runChecked (step s e) rest else none

/-- Number of sockets currently in OPEN state (live connections). -/
def countOpenSocks (s : Channel) : Nat :=
  s.sockState.countP fun st => st == SockState.opened

/-- Whether an event is the explicit connect control message. -/
def isConnectEv : Ev → Bool
  | .wsConnect _ _ => true
  | _ => false

/-- The backoff formula of background.js line 130. -/
def reconnectDelay (attempts : Nat) : Nat := min (1000 * 2 ^ attempts) 30000

/-- Seven consecutive failed connection cycles: connect, then the
socket closes, the reconnect timer fires, the next socket closes, and
so on. -/
def backoffTrace : List Ev :=
  [.wsConnect "u" true, .closeEvt 0, .timerFire 0 true, .closeEvt 1,
   .timerFire 1 true, .closeEvt 2, .timerFire 2 true, .closeEvt 3,
   .timerFire 3 true, .closeEvt 4, .timerFire 4 true, .closeEvt 5,
   .timerFire 5 true, .closeEvt 6]

/-- Connect and open socket 0; reconnect to a new URL, which closes
socket 0 and creates socket 1; socket 1 opens; only then does socket
0's close event arrive, nulling the shared `ws` variable and scheduling
a reconnect even though socket 1 is open; the timer fires and creates
socket 2, which also opens (two live connections); sockets 2 and then 1
later close, each scheduling a timer without the previous one being
cancelled (two pending timers). -/
def dupTrace : List Ev :=
  [.wsConnect "u" true, .openEvt 0, .wsConnect "v" true, .openEvt 1,
   .closeEvt 0, .timerFire 0 true, .openEvt 2, .closeEvt 2, .closeEvt 1]

/-- A channel state with a stored URL and fresh counters. -/
def chanU : Channel := { initChannel with wsUrl := some "ws://localhost:8080" }

/-- The state after connecting and the socket opening. -/
def chanOpen : Channel :=
  (runChecked initChannel [.wsConnect "ws://localhost:8080" true, .openEvt 0]).getD
    initChannel

/-- The state after an explicit disconnect from `chanOpen` followed by
the stale socket's close event. -/
def chanAfterStaleClose : Channel :=
  (runChecked (step chanOpen .wsDisconnect) [.closeEvt 0]).getD initChannel

/-! ## Command dispatcher: data model -/

/-- The shape of the object spread into a result message: the
`success` flag and the optional `error` and `image` fields the
dispatcher branches construct.  Payload fields of in-page responses
other than these are opaque to the dispatcher and omitted. -/
structure Res where
  success : Bool
  error : Option String := none
  image : Option String := none
  deriving DecidableEq, Repr

/-- An incoming command message (background.js line 157 and the
per-case fields): `type`, `requestId` and `tabId`, plus the optional
type-specific parameters.  An absent JSON field is `none`. -/
structure Command where
  type : String
  requestId : String
  tabId : Nat
  selector : Option String := none
  x : Option Int := none
  y : Option Int := none
  url : Option String := none
  text : Option String := none
  deriving DecidableEq, Repr

/-- An outgoing result message (background.js lines 205-218):
`{type: 'result', requestId, ...result}`. -/
structure WsMessage where
  type : String
  requestId : String
  body : Res
  deriving DecidableEq, Repr

/-- Externally visible actions of a dispatch: `execInTab` is one
`executeInTab` call (script injection plus the message to the content
script), `navigateTab` is `chrome.tabs.update(tabId, i.e. url)`,
`activateTab` is `chrome.tabs.update(tabId, active true)`,
`captureCall` is one `chrome.tabs.captureVisibleTab` invocation, and
`sendMessage` is one `sendWsMessage` call. -/
inductive DispatchEv
  | execInTab (tabId : Nat) (action : String)
  | navigateTab (tabId : Nat) (url : String)
  | activateTab (tabId : Nat)
  | sleepMs (ms : Nat)
  | captureCall
  | sendMessage (m : WsMessage)
  deriving DecidableEq, Repr

/-- How the awaited browser primitives resolve during one dispatch:
`exec tabId action` is the content-script response (or rejection) of
`executeInTab`, `navigate` is `chrome.tabs.update` with a URL,
`activate` is `chrome.tabs.update` with `active: true`, and `capture`
is the screenshot primitive. -/
structure Oracles where
  exec : Nat → String → Except String Res
  navigate : Nat → String → Except String Unit
  activate : Nat → Except String Unit
  capture : Except String String

/-- `captureTabScreenshot` (background.js lines 250-268): activate the
tab, wait 100 ms, capture once; its own try/catch converts any failure
into `{success: false, error}` instead of throwing; on success the
result is `{success: true, image: dataUrl.split(',')[1]}`. -/
def captureTabScreenshot (o : Oracles) (tabId : Nat) : List DispatchEv × Res :=
  match o.activate tabId with
  | .error msg => ([.activateTab tabId], { success := false, error := some msg })
  | .ok _ =>
    match o.capture with
    | .ok dataUrl =>
      ([.activateTab tabId, .sleepMs 100, .captureCall],
       { success := true, image := splitBase64 dataUrl })
    | .error msg =>
      ([.activateTab tabId, .sleepMs 100, .captureCall],
       { success := false, error := some msg })

/-- The switch of `handleWsCommand` (background.js lines 162-203):
per command type, the page actions performed and the produced result,
where `Except.error` is an exception escaping the switch. -/
def dispatchCore (o : Oracles) (c : Command) : List DispatchEv × Except String Res :=
  if c.type = "getElements" then
    ([.execInTab c.tabId "getInteractiveElements"], o.exec c.tabId "getInteractiveElements")
  else if c.type = "getContent" then
    ([.execInTab c.tabId "extractPageContent"], o.exec c.tabId "extractPageContent")
  else if c.type = "click" then
    match c.selector with
    | some _ => ([.execInTab c.tabId "clickElement"], o.exec c.tabId "clickElement")
    | none =>
      if c.x.isSome && c.y.isSome then
        ([.execInTab c.tabId "clickElement"], o.exec c.tabId "clickElement")
      else
        ([], .ok { success := false, error := some "No selector or coordinates provided" })
  else if c.type = "type" then
    ([.execInTab c.tabId "typeText"], o.exec c.tabId "typeText")
  else if c.type = "navigate" then
    match c.url with
    | some u =>
      (match o.navigate c.tabId u with
       | .ok _ => ([.navigateTab c.tabId u], .ok { success := true })
       | .error m => ([.navigateTab c.tabId u], .error m))
    | none => ([], .ok { success := false, error := some "No URL provided" })
  else if c.type = "screenshot" then
    ((captureTabScreenshot o c.tabId).1, .ok (captureTabScreenshot o c.tabId).2)
  else
    ([], .ok { success := false, error := some ("Unknown command type: " ++ c.type) })

/-- `handleWsCommand` (background.js lines 156-219): run the switch
inside try/catch; send exactly one result message carrying the
command's `requestId`, either the produced result or, when the switch
threw, `{success: false, error: e.message}`. -/
def handleWsCommand (o : Oracles) (c : Command) : List DispatchEv × WsMessage :=
  match dispatchCore o c with
  | (evs, .ok res) =>
    let m : WsMessage := { type := "result", requestId := c.requestId, body := res }
    (evs ++ [.sendMessage m], m)
  | (evs, .error msg) =>
    let m : WsMessage :=
      { type := "result", requestId := c.requestId,
        body := { success := false, error := some msg } }
    (evs ++ [.sendMessage m], m)

/-- Number of result messages sent in a dispatch trace. -/
def countSends : List DispatchEv → Nat
  | [] => 0
  | .sendMessage _ :: rest => countSends rest + 1
  | _ :: rest => countSends rest

/-- Number of capture-primitive invocations in a dispatch trace. -/
def countCaptures : List DispatchEv → Nat
  | [] => 0
  | .captureCall :: rest => countCaptures rest + 1
  | _ :: rest => countCaptures rest

/-- Oracles whose `executeInTab` call always rejects with message boom. -/
def oExecFail : Oracles :=
  { exec := fun _ _ => .error "boom",
    navigate := fun _ _ => .ok (),
    activate := fun _ => .ok (),
    capture := .ok "d,QUJD" }

/-- Oracles whose capture primitive rejects with the rate-limit
message. -/
def oCapRateLimited : Oracles :=
  { exec := fun _ _ => .ok { success := true },
    navigate := fun _ _ => .ok (),
    activate := fun _ => .ok (),
    capture := .error "MAX_CAPTURE_VISIBLE_TAB_CALLS_PER_SECOND quota exceeded" }

/-- Oracles whose every primitive succeeds. -/
def oAllOk : Oracles :=
  { exec := fun _ _ => .ok { success := true },
    navigate := fun _ _ => .ok (),
    activate := fun _ => .ok (),
    capture := .ok "data:image/jpeg;base64,QUJD" }

/-- A getElements command with request id r7 for tab 3. -/
def cmdGetElements : Command := { type := "getElements", requestId := "r7", tabId := 3 }

/-- A click command with neither selector nor coordinates. -/
def cmdClickEmpty : Command := { type := "click", requestId := "r1", tabId := 7 }

/-- The spec's scenario: a navigate command without a url. -/
def cmdNavNoUrl : Command := { type := "navigate", requestId := "r1", tabId := 7 }

/-- A screenshot command with request id r2 for tab 5. -/
def cmdShot : Command := { type := "screenshot", requestId := "r2", tabId := 5 }

/-! ## Helper lemmas: capture engine -/

theorem cellsList_length (tilesX tilesY : Nat) :
    (cellsList tilesX tilesY).length = tilesY * tilesX := by
  induction tilesY with
  | zero => simp [cellsList]
  | succ n ih =>
    simp only [cellsList, List.range_succ, List.flatMap_append] at *
    simp [ih, Nat.succ_mul]

theorem cellsList_succ (tilesX n : Nat) :
    cellsList tilesX (n + 1) =
      cellsList tilesX n ++ (List.range tilesX).map fun col => (col, n) := by
  simp [cellsList, List.range_succ]

theorem cellsList_getElem? (tilesX tilesY k : Nat) (hk : k < tilesY * tilesX) :
    (cellsList tilesX tilesY)[k]? = some (k % tilesX, k / tilesX) := by
  induction tilesY with
  | zero => omega
  | succ n ih =>
    rw [cellsList_succ]
    have hmul : (n + 1) * tilesX = n * tilesX + tilesX := by ring
    rcases Nat.lt_or_ge k (n * tilesX) with h | h
    · rw [List.getElem?_append_left (by simpa [cellsList_length] using h)]
      exact ih h
    · have hx : 0 < tilesX := by omega
      obtain ⟨r, hr, hrlt⟩ : ∃ r, k = n * tilesX + r ∧ r < tilesX :=
        ⟨k - n * tilesX, by omega, by omega⟩
      subst hr
      have hlen : (cellsList tilesX n).length ≤ n * tilesX + r := by
        rw [cellsList_length]; omega
      rw [List.getElem?_append_right hlen, cellsList_length]
      have hmod : (n * tilesX + r) % tilesX = r := by
        rw [Nat.mul_comm, Nat.mul_add_mod]
        exact Nat.mod_eq_of_lt hrlt
      have hdiv : (n * tilesX + r) / tilesX = n := by
        rw [Nat.mul_comm, Nat.mul_add_div hx, Nat.div_eq_of_lt hrlt]
        omega
      simp [hmod, hdiv, List.getElem?_range hrlt, Nat.add_sub_cancel_left]

theorem captureCells_allOk (cfg : EngineConfig) (totalTiles : Nat) (data : Nat → String)
    (cells : List (Nat × Nat)) : ∀ tileIndex callNo,
    (captureCells (fun n => .ok (data n)) cfg totalTiles cells tileIndex callNo).2.2 =
      .ok (okTiles cfg totalTiles data cells tileIndex callNo) := by
  induction cells with
  | nil => intro t n; rfl
  | cons cr rest ih =>
    intro t n
    obtain ⟨col, row⟩ := cr
    simp only [captureCells, retryLoop, okTiles]
    have := ih (t + 1) (n + 1)
    revert this
    cases hrec : captureCells (fun n => .ok (data n)) cfg totalTiles rest (t + 1) (n + 1) with
    | mk evs2 p =>
      obtain ⟨c2, r2⟩ := p
      cases r2 with
      | error e => intro h; simp at h
      | ok tiles => intro h; simp at h; subst h; rfl

theorem okTiles_length (cfg : EngineConfig) (totalTiles : Nat) (data : Nat → String)
    (cells : List (Nat × Nat)) : ∀ tileIndex callNo,
    (okTiles cfg totalTiles data cells tileIndex callNo).length = cells.length := by
  induction cells with
  | nil => intro t n; rfl
  | cons cr rest ih =>
    intro t n
    obtain ⟨c, r⟩ := cr
    simp [okTiles, ih]

theorem okTiles_getElem? (cfg : EngineConfig) (totalTiles : Nat) (data : Nat → String)
    (cells : List (Nat × Nat)) : ∀ tileIndex callNo k,
    (okTiles cfg totalTiles data cells tileIndex callNo)[k]? =
      (cells[k]?).map fun cr =>
        ({ index := tileIndex + k + 1, col := cr.1, row := cr.2,
           text := tileText cfg.textMessage (tileIndex + k + 1) totalTiles cr.1 cr.2,
           image := splitBase64 (data (callNo + k)), hidden := cfg.hidden } : Tile) := by
  induction cells with
  | nil => intro t n k; simp [okTiles]
  | cons cr rest ih =>
    intro t n k
    obtain ⟨c, r⟩ := cr
    cases k with
    | zero => simp [okTiles]
    | succ k =>
      simp only [okTiles, List.getElem?_cons_succ, ih (t + 1) (n + 1) k]
      have h1 : t + 1 + k = t + (k + 1) := by omega
      have h2 : n + 1 + k = n + (k + 1) := by omega
      rw [h1, h2]

theorem captureFullPage_allOk (data : Nat → String) (cfg : EngineConfig) :
    (captureFullPage (fun k => .ok (data k)) (fun _ => none) none cfg).2 =
      .ok (okTiles cfg
            (ceilDiv cfg.pageHeight cfg.viewportHeight * ceilDiv cfg.pageWidth cfg.viewportWidth)
            data
            (cellsList (ceilDiv cfg.pageWidth cfg.viewportWidth)
              (ceilDiv cfg.pageHeight cfg.viewportHeight)) 0 0,
           ceilDiv cfg.pageHeight cfg.viewportHeight * ceilDiv cfg.pageWidth cfg.viewportWidth) := by
  unfold captureFullPage
  have hok := captureCells_allOk cfg
    (ceilDiv cfg.pageHeight cfg.viewportHeight * ceilDiv cfg.pageWidth cfg.viewportWidth)
    data
    (cellsList (ceilDiv cfg.pageWidth cfg.viewportWidth)
      (ceilDiv cfg.pageHeight cfg.viewportHeight)) 0 0
  revert hok
  cases hc : captureCells (fun k => .ok (data k)) cfg
      (ceilDiv cfg.pageHeight cfg.viewportHeight * ceilDiv cfg.pageWidth cfg.viewportWidth)
      (cellsList (ceilDiv cfg.pageWidth cfg.viewportWidth)
        (ceilDiv cfg.pageHeight cfg.viewportHeight)) 0 0 with
  | mk evs p =>
    obtain ⟨cn, res⟩ := p
    cases res with
    | error e => intro h; simp at h
    | ok tiles => intro h; simp at h; subst h; simp [hc]

theorem ceilDiv_eq_one (a b : Nat) (ha : 0 < a) (hab : a ≤ b) : ceilDiv a b = 1 := by
  unfold ceilDiv
  exact Nat.div_eq_of_lt_le (by omega) (by omega)

theorem ceilDiv_pos (a b : Nat) (ha : 0 < a) (hb : 0 < b) : 0 < ceilDiv a b := by
  unfold ceilDiv
  exact Nat.div_pos (by omega) hb

theorem retryLoop_all_cellEvents (cap : Nat → CapResult) :
    ∀ retries callNo, ((retryLoop cap callNo retries).1).all isCellEvent = true := by
  intro retries
  induction retries with
  | zero => intro n; rfl
  | succ r ih =>
    intro n
    simp only [retryLoop]
    cases cap n with
    | ok d => rfl
    | failed msg => rfl
    | rateLimited =>
      by_cases hr : r > 0
      · simp only [hr, if_true]
        simp [isCellEvent, ih (n + 1)]
      · simp [hr, isCellEvent]

theorem captureCells_all_cellEvents (cap : Nat → CapResult) (cfg : EngineConfig)
    (total : Nat) (cells : List (Nat × Nat)) : ∀ tileIndex callNo,
    ((captureCells cap cfg total cells tileIndex callNo).1).all isCellEvent = true := by
  induction cells with
  | nil => intro t n; rfl
  | cons cr rest ih =>
    intro t n
    obtain ⟨col, row⟩ := cr
    simp only [captureCells]
    have hretry := retryLoop_all_cellEvents cap 3 n
    revert hretry
    cases hr : retryLoop cap n 3 with
    | mk evs p =>
      obtain ⟨c1, r1⟩ := p
      cases r1 with
      | error e => intro hretry; simp_all [isCellEvent]
      | ok dataUrl =>
        intro hretry
        have hrec := ih (t + 1) c1
        revert hrec
        cases hc : captureCells cap cfg total rest (t + 1) c1 with
        | mk evs2 p2 =>
          obtain ⟨c2, r2⟩ := p2
          cases r2 with
          | error e => intro hrec; simp_all [isCellEvent]
          | ok tiles => intro hrec; simp_all [isCellEvent]

theorem no_submit_of_all_cellEvents (evs : List EngineEvent)
    (h : evs.all isCellEvent = true) : ∀ n, EngineEvent.submitBatch n ∉ evs := by
  intro n hmem
  have := List.all_eq_true.mp h _ hmem
  simp [isCellEvent] at this

theorem no_reset_of_all_cellEvents (evs : List EngineEvent)
    (h : evs.all isCellEvent = true) : EngineEvent.resetScroll ∉ evs := by
  intro hmem
  have := List.all_eq_true.mp h _ hmem
  simp [isCellEvent] at this

theorem cellsList_exists_cons (tilesX tilesY : Nat) (hx : 0 < tilesX) (hy : 0 < tilesY) :
    ∃ rest, cellsList tilesX tilesY = (0, 0) :: rest := by
  obtain ⟨m, rfl⟩ : ∃ m, tilesX = m + 1 := ⟨tilesX - 1, by omega⟩
  obtain ⟨n, rfl⟩ : ∃ n, tilesY = n + 1 := ⟨tilesY - 1, by omega⟩
  simp only [cellsList, List.range_succ_eq_map, List.flatMap_cons, List.map_cons,
    List.cons_append]
  exact ⟨_, rfl⟩

theorem retry_third_attempt (cap : Nat → CapResult) (s : String)
    (h0 : cap 0 = .rateLimited) (h1 : cap 1 = .rateLimited) (h2 : cap 2 = .ok s) :
    retryLoop cap 0 3 =
      ([.captureCall, .sleepMs 1000, .captureCall, .sleepMs 1000, .captureCall], 3, .ok s) := by
  simp [retryLoop, h0, h1, h2]

theorem retry_exhausted (cap : Nat → CapResult)
    (h0 : cap 0 = .rateLimited) (h1 : cap 1 = .rateLimited) (h2 : cap 2 = .rateLimited) :
    retryLoop cap 0 3 =
      ([.captureCall, .sleepMs 1000, .captureCall, .sleepMs 1000, .captureCall], 3,
       .error .rateLimitExceeded) := by
  simp [retryLoop, h0, h1, h2]

theorem retry_other_error (cap : Nat → CapResult) (msg : String)
    (h0 : cap 0 = .failed msg) :
    retryLoop cap 0 3 = ([.captureCall], 1, .error (.captureError msg)) := by
  simp [retryLoop, h0]

theorem captureFullPage_cells_error (cap : Nat → CapResult)
    (submit : List Tile → Option String) (reset : Option String) (cfg : EngineConfig)
    (evs : List EngineEvent) (cn : Nat) (e : EngineError)
    (h : captureCells cap cfg
        (ceilDiv cfg.pageHeight cfg.viewportHeight * ceilDiv cfg.pageWidth cfg.viewportWidth)
        (cellsList (ceilDiv cfg.pageWidth cfg.viewportWidth)
          (ceilDiv cfg.pageHeight cfg.viewportHeight)) 0 0 = (evs, cn, .error e)) :
    captureFullPage cap submit reset cfg = (evs, .error e) := by
  simp [captureFullPage, h]

theorem captureCells_head_rateLimit (cap : Nat → CapResult) (cfg : EngineConfig)
    (total : Nat) (col row : Nat) (rest : List (Nat × Nat))
    (h0 : cap 0 = .rateLimited) (h1 : cap 1 = .rateLimited) (h2 : cap 2 = .rateLimited) :
    captureCells cap cfg total ((col, row) :: rest) 0 0 =
      ([.progress 1 total,
        .scrollTo (col * cfg.viewportWidth) (row * cfg.viewportHeight), .sleepMs 600,
        .captureCall, .sleepMs 1000, .captureCall, .sleepMs 1000, .captureCall], 3,
       .error .rateLimitExceeded) := by
  simp [captureCells, retry_exhausted cap h0 h1 h2]

theorem captureFullPage_rateLimit_abort (cap : Nat → CapResult)
    (submit : List Tile → Option String) (reset : Option String) (cfg : EngineConfig)
    (h0 : cap 0 = .rateLimited) (h1 : cap 1 = .rateLimited) (h2 : cap 2 = .rateLimited)
    (hpw : 0 < cfg.pageWidth) (hph : 0 < cfg.pageHeight)
    (hvw : 0 < cfg.viewportWidth) (hvh : 0 < cfg.viewportHeight) :
    (captureFullPage cap submit reset cfg).2 = .error .rateLimitExceeded ∧
    countCaptureCalls (captureFullPage cap submit reset cfg).1 = 3 ∧
    (∀ n, EngineEvent.submitBatch n ∉ (captureFullPage cap submit reset cfg).1) ∧
    EngineEvent.resetScroll ∉ (captureFullPage cap submit reset cfg).1 := by
  obtain ⟨rest, hcells⟩ := cellsList_exists_cons
    (ceilDiv cfg.pageWidth cfg.viewportWidth) (ceilDiv cfg.pageHeight cfg.viewportHeight)
    (ceilDiv_pos _ _ hpw hvw) (ceilDiv_pos _ _ hph hvh)
  have hcc := captureCells_head_rateLimit cap cfg
    (ceilDiv cfg.pageHeight cfg.viewportHeight * ceilDiv cfg.pageWidth cfg.viewportWidth)
    0 0 rest h0 h1 h2
  rw [← hcells] at hcc
  rw [captureFullPage_cells_error cap submit reset cfg _ _ _ hcc]
  refine ⟨rfl, ?_, ?_, ?_⟩
  · simp [countCaptureCalls]
  · intro n hmem; simp at hmem
  · intro hmem; simp at hmem

theorem reset_scroll_paths (cap : Nat → CapResult)
    (submit : List Tile → Option String) (reset : Option String) (cfg : EngineConfig) :
    (∀ tiles n, (captureFullPage cap submit reset cfg).2 = .ok (tiles, n) →
       EngineEvent.resetScroll ∈ (captureFullPage cap submit reset cfg).1 ∧ reset = none) ∧
    (∀ evs cn e, captureCells cap cfg
        (ceilDiv cfg.pageHeight cfg.viewportHeight * ceilDiv cfg.pageWidth cfg.viewportWidth)
        (cellsList (ceilDiv cfg.pageWidth cfg.viewportWidth)
          (ceilDiv cfg.pageHeight cfg.viewportHeight)) 0 0 = (evs, cn, .error e) →
       EngineEvent.resetScroll ∉ (captureFullPage cap submit reset cfg).1) ∧
    (∀ evs cn tiles msg, captureCells cap cfg
        (ceilDiv cfg.pageHeight cfg.viewportHeight * ceilDiv cfg.pageWidth cfg.viewportWidth)
        (cellsList (ceilDiv cfg.pageWidth cfg.viewportWidth)
          (ceilDiv cfg.pageHeight cfg.viewportHeight)) 0 0 = (evs, cn, .ok tiles) →
       submit tiles = some msg →
       EngineEvent.resetScroll ∉ (captureFullPage cap submit reset cfg).1) ∧
    (∀ evs cn tiles msg, captureCells cap cfg
        (ceilDiv cfg.pageHeight cfg.viewportHeight * ceilDiv cfg.pageWidth cfg.viewportWidth)
        (cellsList (ceilDiv cfg.pageWidth cfg.viewportWidth)
          (ceilDiv cfg.pageHeight cfg.viewportHeight)) 0 0 = (evs, cn, .ok tiles) →
       submit tiles = none → reset = some msg →
       (captureFullPage cap submit reset cfg).2 = .error (.resetError msg) ∧
       EngineEvent.resetScroll ∈ (captureFullPage cap submit reset cfg).1) := by
  have hall := captureCells_all_cellEvents cap cfg
    (ceilDiv cfg.pageHeight cfg.viewportHeight * ceilDiv cfg.pageWidth cfg.viewportWidth)
    (cellsList (ceilDiv cfg.pageWidth cfg.viewportWidth)
      (ceilDiv cfg.pageHeight cfg.viewportHeight)) 0 0
  revert hall
  cases hc : captureCells cap cfg
      (ceilDiv cfg.pageHeight cfg.viewportHeight * ceilDiv cfg.pageWidth cfg.viewportWidth)
      (cellsList (ceilDiv cfg.pageWidth cfg.viewportWidth)
        (ceilDiv cfg.pageHeight cfg.viewportHeight)) 0 0 with
  | mk evs p =>
    obtain ⟨cn, res⟩ := p
    intro hall
    cases res with
    | error e =>
      refine ⟨?_, ?_, ?_, ?_⟩
      · intro tiles n h
        rw [captureFullPage_cells_error cap submit reset cfg _ _ _ hc] at h
        simp at h
      · intro evs' cn' e' h
        rw [captureFullPage_cells_error cap submit reset cfg _ _ _ hc]
        cases h
        exact no_reset_of_all_cellEvents _ hall
      · intro evs' cn' tiles msg h
        simp at h
      · intro evs' cn' tiles msg h
        simp at h
    | ok tiles =>
      refine ⟨?_, ?_, ?_, ?_⟩
      · intro tiles' n h
        simp only [captureFullPage, hc] at h ⊢
        cases hs : submit tiles with
        | some msg => rw [hs] at h; simp at h
        | none =>
          rw [hs] at h
          cases hr : reset with
          | some msg => rw [hr] at h; simp at h
          | none => simp [hs]
      · intro evs' cn' e' h
        simp at h
      · intro evs' cn' tiles' msg h hs
        simp only [Prod.mk.injEq, Except.ok.injEq] at h
        obtain ⟨he, hcn, ht⟩ := h
        subst he; subst ht
        simp only [captureFullPage, hc, hs]
        intro hmem
        rcases List.mem_append.mp hmem with hm | hm
        · exact no_reset_of_all_cellEvents _ hall hm
        · simp at hm
      · intro evs' cn' tiles' msg h hs hr
        simp only [Prod.mk.injEq, Except.ok.injEq] at h
        obtain ⟨he, hcn, ht⟩ := h
        subst he; subst ht
        simp [captureFullPage, hc, hs, hr]

/-! ## Helper lemmas: remote command channel -/

theorem scheduleReconnect_spec (s : Channel) (u : String) (h : s.wsUrl = some u) :
    (scheduleReconnect s).scheduledDelays =
      s.scheduledDelays ++ [reconnectDelay s.reconnectAttempts] ∧
    (scheduleReconnect s).reconnectAttempts = s.reconnectAttempts + 1 := by
  simp [scheduleReconnect, h, reconnectDelay]

theorem closeEvt_increments (s : Channel) (sid : Nat) (u : String) (h : s.wsUrl = some u) :
    (step s (.closeEvt sid)).reconnectAttempts = s.reconnectAttempts + 1 := by
  simp [step, scheduleReconnect, h]

theorem openEvt_resets (s : Channel) (sid : Nat) :
    (step s (.openEvt sid)).reconnectAttempts = 0 := by
  simp [step]

theorem disconnectWebSocket_preserves (s : Channel) :
    (disconnectWebSocket s).wsUrl = s.wsUrl ∧
    (disconnectWebSocket s).scheduledDelays = s.scheduledDelays ∧
    (disconnectWebSocket s).nextTimer = s.nextTimer := by
  unfold disconnectWebSocket closeCurrentWs clearReconnectTimer
  rcases hrt : s.reconnectTimeout with _ | t <;>
    rcases hws : s.ws with _ | sid <;> simp [hrt, hws]

theorem connectWebSocket_no_url (createOk : Bool) (s : Channel) (h : s.wsUrl = none) :
    connectWebSocket createOk s = s := by
  simp [connectWebSocket, h]

theorem step_preserves_no_url (s : Channel) (e : Ev)
    (hurl : s.wsUrl = none) (he : isConnectEv e = false) :
    (step s e).wsUrl = none ∧
    (step s e).scheduledDelays = s.scheduledDelays ∧
    (step s e).nextTimer = s.nextTimer := by
  cases e with
  | wsConnect url createOk => simp [isConnectEv] at he
  | wsDisconnect =>
    have h2 := disconnectWebSocket_preserves { s with wsUrl := none }
    simpa [step] using h2
  | openEvt sid => simp [step, hurl]
  | closeEvt sid => simp [step, scheduleReconnect, hurl]
  | errorEvt sid => simp [step, hurl]
  | timerFire tid createOk =>
    rw [step, connectWebSocket_no_url _ _ (by simp [hurl])]
    simp [hurl]

theorem runChecked_no_url (evs : List Ev) : ∀ s s' : Channel,
    s.wsUrl = none → (∀ e ∈ evs, isConnectEv e = false) →
    runChecked s evs = some s' →
    s'.scheduledDelays = s.scheduledDelays ∧ s'.nextTimer = s.nextTimer := by
  induction evs with
  | nil =>
    intro s s' _ _ hr
    simp [runChecked] at hr
    subst hr
    exact ⟨rfl, rfl⟩
  | cons e rest ih =>
    intro s s' h hnc hr
    simp only [runChecked] at hr
    by_cases he : enabled s e = true
    · rw [if_pos he] at hr
      obtain ⟨h1, h2, h3⟩ := step_preserves_no_url s e h (hnc e (by simp))
      have hrest := ih (step s e) s' h1 (fun e' he' => hnc e' (by simp [he'])) hr
      exact ⟨hrest.1.trans h2, hrest.2.trans h3⟩
    · rw [if_neg he] at hr
      cases hr

/-! ## Helper lemmas: command dispatcher -/

theorem countSends_append (a b : List DispatchEv) :
    countSends (a ++ b) = countSends a + countSends b := by
  induction a with
  | nil => simp [countSends]
  | cons e rest ih =>
    cases e <;> simp [countSends, ih] <;> omega

theorem dispatchCore_no_sends (o : Oracles) (c : Command) :
    countSends (dispatchCore o c).1 = 0 := by
  unfold dispatchCore captureTabScreenshot
  repeat' split
  all_goals simp [countSends]

/-! ## Claims -/

/-- C1: For every page dimensions (pw, ph) and viewport dimensions
(vw, vh) returned by the dimension query, the capture engine computes
columns = ceil(pw/vw) and rows = ceil(ph/vh) and produces exactly
columns times rows tiles; in particular, when page dimensions are at
most the viewport dimensions the grid is 1 by 1. -/
theorem capture_grid_tile_count (data : Nat → String) (cfg : EngineConfig)
    (hvw : 0 < cfg.viewportWidth) (hvh : 0 < cfg.viewportHeight) :
    (∃ tiles,
      (captureFullPage (fun k => CapResult.ok (data k)) (fun _ => none) none cfg).2 =
        .ok (tiles,
          ceilDiv cfg.pageHeight cfg.viewportHeight * ceilDiv cfg.pageWidth cfg.viewportWidth) ∧
      tiles.length =
        ceilDiv cfg.pageHeight cfg.viewportHeight * ceilDiv cfg.pageWidth cfg.viewportWidth) ∧
    (0 < cfg.pageWidth → cfg.pageWidth ≤ cfg.viewportWidth →
     0 < cfg.pageHeight → cfg.pageHeight ≤ cfg.viewportHeight →
     ceilDiv cfg.pageWidth cfg.viewportWidth = 1 ∧
     ceilDiv cfg.pageHeight cfg.viewportHeight = 1) := by
  constructor
  · refine ⟨_, captureFullPage_allOk data cfg, ?_⟩
    rw [okTiles_length, cellsList_length]
  · intro h1 h2 h3 h4
    exact ⟨ceilDiv_eq_one _ _ h1 h2, ceilDiv_eq_one _ _ h3 h4⟩

/-- C1 witness: the spec's example page 1920 by 3000 in a 1920 by 1000
viewport yields exactly 3 tiles, and the 100 by 100 page in the 100 by
100 viewport yields a 1 by 1 grid. -/
theorem capture_grid_tile_count_witness :
    (∃ tiles,
      (captureFullPage (fun _ => CapResult.ok "d,QUJD") (fun _ => none) none cfgSpec).2 =
        .ok (tiles, 3) ∧ tiles.length = 3) ∧
    ceilDiv cfg1.pageWidth cfg1.viewportWidth = 1 ∧
    ceilDiv cfg1.pageHeight cfg1.viewportHeight = 1 := by
  have h1 := capture_grid_tile_count (fun _ => "d,QUJD") cfgSpec (by decide) (by decide)
  have h2 := capture_grid_tile_count (fun _ => "d,QUJD") cfg1 (by decide) (by decide)
  exact ⟨h1.1, h2.2 (by decide) (by decide) (by decide) (by decide)⟩

/-- C2: When every capture succeeds, the batch of a run contains one
tile per grid cell in strict row-major order: the tile at list
position k carries the 1-based contiguous index k+1, column k mod
columns, row k div columns, and descriptive text given by `tileText`
(the annotation followed by the bracketed position suffix when an
annotation is present, the bare position text otherwise). -/
theorem capture_tiles_row_major (data : Nat → String) (cfg : EngineConfig)
    (tiles : List Tile) (total : Nat)
    (h : (captureFullPage (fun k => CapResult.ok (data k)) (fun _ => none) none cfg).2 =
      .ok (tiles, total)) :
    tiles.length = total ∧
    ∀ k, k < total →
      tiles[k]? = some
        { index := k + 1,
          col := k % ceilDiv cfg.pageWidth cfg.viewportWidth,
          row := k / ceilDiv cfg.pageWidth cfg.viewportWidth,
          text := tileText cfg.textMessage (k + 1) total
            (k % ceilDiv cfg.pageWidth cfg.viewportWidth)
            (k / ceilDiv cfg.pageWidth cfg.viewportWidth),
          image := splitBase64 (data k), hidden := cfg.hidden } := by
  have hall := captureFullPage_allOk data cfg
  rw [h] at hall
  simp only [Except.ok.injEq, Prod.mk.injEq] at hall
  obtain ⟨ht, htot⟩ := hall
  subst ht htot
  constructor
  · rw [okTiles_length, cellsList_length]
  · intro k hk
    rw [okTiles_getElem?, cellsList_getElem? _ _ _ hk]
    simp

/-- C2 witness: the 2 by 2 grid with annotation hi produces the four
tiles in order (0,0), (1,0), (0,1), (1,1); the third tile has index 3,
column 0, row 1 and text hi [Tile 3/4 at 0,1]. -/
theorem capture_tiles_row_major_witness :
    tiles2x2.length = 4 ∧
    tiles2x2[2]? = some
      { index := 3, col := 0, row := 1, text := "hi [Tile 3/4 at 0,1]",
        image := some "QUJD", hidden := false } := by
  have h := capture_tiles_row_major (fun _ => "d,QUJD") cfg2x2 tiles2x2 4 (by rfl)
  exact ⟨h.1, h.2 2 (by decide)⟩

/-- C3: On a rate-limit rejection the capture primitive is retried
with a 1-second backoff, up to 3 attempts in total: rejections on
attempts 1 and 2 followed by success on attempt 3 produce the data URL
with no error; rejections on all 3 attempts raise the rate-limit
exhaustion error; a non-rate-limit rejection propagates immediately
after a single attempt.  At the engine level, exhausting the retries
on the first tile aborts the run with `rateLimitExceeded` after exactly
3 capture calls (no further tiles) and no batch is submitted; and a
concrete run that succeeds on the third attempt still produces its
tile and returns success. -/
theorem rate_limit_retry_policy :
    (∀ cap s, cap 0 = CapResult.rateLimited → cap 1 = CapResult.rateLimited →
      cap 2 = CapResult.ok s →
      retryLoop cap 0 3 =
        ([.captureCall, .sleepMs 1000, .captureCall, .sleepMs 1000, .captureCall], 3,
         .ok s)) ∧
    (∀ cap, cap 0 = CapResult.rateLimited → cap 1 = CapResult.rateLimited →
      cap 2 = CapResult.rateLimited →
      retryLoop cap 0 3 =
        ([.captureCall, .sleepMs 1000, .captureCall, .sleepMs 1000, .captureCall], 3,
         .error .rateLimitExceeded)) ∧
    (∀ cap msg, cap 0 = CapResult.failed msg →
      retryLoop cap 0 3 = ([.captureCall], 1, .error (.captureError msg))) ∧
    (∀ cap submit reset cfg,
      cap 0 = CapResult.rateLimited → cap 1 = CapResult.rateLimited →
      cap 2 = CapResult.rateLimited →
      0 < cfg.pageWidth → 0 < cfg.pageHeight →
      0 < cfg.viewportWidth → 0 < cfg.viewportHeight →
      (captureFullPage cap submit reset cfg).2 = .error .rateLimitExceeded ∧
      countCaptureCalls (captureFullPage cap submit reset cfg).1 = 3 ∧
      (∀ n, EngineEvent.submitBatch n ∉ (captureFullPage cap submit reset cfg).1)) ∧
    ((captureFullPage (fun n => if n < 2 then .rateLimited else .ok "d,QUJD")
        (fun _ => none) none cfg1).2 = .ok (tiles1, 1)) :=
  ⟨retry_third_attempt, retry_exhausted, retry_other_error,
   fun cap submit reset cfg h0 h1 h2 hpw hph hvw hvh =>
     have h := captureFullPage_rateLimit_abort cap submit reset cfg h0 h1 h2 hpw hph hvw hvh
     ⟨h.1, h.2.1, h.2.2.1⟩,
   by rfl⟩

/-- C3 witness: the three retry scenarios and the engine-level abort,
each at a concrete capture oracle. -/
theorem rate_limit_retry_policy_witness :
    retryLoop (fun n => if n < 2 then .rateLimited else .ok "d,QUJD") 0 3 =
      ([.captureCall, .sleepMs 1000, .captureCall, .sleepMs 1000, .captureCall], 3,
       .ok "d,QUJD") ∧
    retryLoop (fun _ => CapResult.rateLimited) 0 3 =
      ([.captureCall, .sleepMs 1000, .captureCall, .sleepMs 1000, .captureCall], 3,
       .error .rateLimitExceeded) ∧
    retryLoop (fun _ => CapResult.failed "tab not found") 0 3 =
      ([.captureCall], 1, .error (.captureError "tab not found")) ∧
    (captureFullPage (fun _ => CapResult.rateLimited) (fun _ => none) none cfg1).2 =
      .error .rateLimitExceeded ∧
    countCaptureCalls
      ((captureFullPage (fun _ => CapResult.rateLimited) (fun _ => none) none cfg1).1) = 3 ∧
    (∀ n, EngineEvent.submitBatch n ∉
      (captureFullPage (fun _ => CapResult.rateLimited) (fun _ => none) none cfg1).1) := by
  have h := rate_limit_retry_policy
  have h4 := h.2.2.2.1 (fun _ => CapResult.rateLimited) (fun _ => none) none cfg1
    rfl rfl rfl (by decide) (by decide) (by decide) (by decide)
  exact ⟨h.1 _ "d,QUJD" rfl rfl rfl, h.2.1 _ rfl rfl rfl,
         h.2.2.1 _ "tab not found" rfl, h4.1, h4.2.1, h4.2.2⟩

/-- C4 counterexample: the claim that the scroll position is reset
regardless of success, and that a reset failure after successful
capture is not a session failure, is false on the code.  A run whose
captures all hit the rate limit fails without any `resetScroll` call
ever being made; and a run whose capture and batch submission succeed
but whose reset message rejects (message: tab closed) ends in
`resetError`, i.e. the session fails. -/
theorem scroll_reset_unconditional_false :
    ((captureFullPage (fun _ => CapResult.rateLimited) (fun _ => none) none cfg1).2 =
      .error .rateLimitExceeded ∧
     EngineEvent.resetScroll ∉
       (captureFullPage (fun _ => CapResult.rateLimited) (fun _ => none) none cfg1).1) ∧
    (captureFullPage (fun _ => CapResult.ok "d,QUJD") (fun _ => none)
        (some "tab closed") cfg1).2 = .error (.resetError "tab closed") :=
  ⟨⟨rfl, by decide⟩, rfl⟩

/-- C4 (amended): the scroll reset is attempted exactly on the success
path: a successful run has made the reset call (and the reset oracle
resolved); if the capture loop fails, no reset call is made; if
capture succeeds but batch submission fails, no reset call is made; if
capture and submission succeed and the reset call itself rejects, the
reset was attempted but the run fails with `resetError` (a session
failure). -/
theorem scroll_reset_success_path_only (cap : Nat → CapResult)
    (submit : List Tile → Option String) (reset : Option String) (cfg : EngineConfig) :
    (∀ tiles n, (captureFullPage cap submit reset cfg).2 = .ok (tiles, n) →
       EngineEvent.resetScroll ∈ (captureFullPage cap submit reset cfg).1 ∧ reset = none) ∧
    (∀ evs cn e, captureCells cap cfg
        (ceilDiv cfg.pageHeight cfg.viewportHeight * ceilDiv cfg.pageWidth cfg.viewportWidth)
        (cellsList (ceilDiv cfg.pageWidth cfg.viewportWidth)
          (ceilDiv cfg.pageHeight cfg.viewportHeight)) 0 0 = (evs, cn, .error e) →
       EngineEvent.resetScroll ∉ (captureFullPage cap submit reset cfg).1) ∧
    (∀ evs cn tiles msg, captureCells cap cfg
        (ceilDiv cfg.pageHeight cfg.viewportHeight * ceilDiv cfg.pageWidth cfg.viewportWidth)
        (cellsList (ceilDiv cfg.pageWidth cfg.viewportWidth)
          (ceilDiv cfg.pageHeight cfg.viewportHeight)) 0 0 = (evs, cn, .ok tiles) →
       submit tiles = some msg →
       EngineEvent.resetScroll ∉ (captureFullPage cap submit reset cfg).1) ∧
    (∀ evs cn tiles msg, captureCells cap cfg
        (ceilDiv cfg.pageHeight cfg.viewportHeight * ceilDiv cfg.pageWidth cfg.viewportWidth)
        (cellsList (ceilDiv cfg.pageWidth cfg.viewportWidth)
          (ceilDiv cfg.pageHeight cfg.viewportHeight)) 0 0 = (evs, cn, .ok tiles) →
       submit tiles = none → reset = some msg →
       (captureFullPage cap submit reset cfg).2 = .error (.resetError msg) ∧
       EngineEvent.resetScroll ∈ (captureFullPage cap submit reset cfg).1) :=
  reset_scroll_paths cap submit reset cfg

/-- C4 witness: a fully successful run on the one-cell grid contains
the reset call in its trace. -/
theorem scroll_reset_success_path_only_witness :
    EngineEvent.resetScroll ∈
      (captureFullPage capOK (fun _ => none) none cfg1).1 ∧
    (none : Option String) = none :=
  (scroll_reset_success_path_only capOK (fun _ => none) none cfg1).1 tiles1 1 (by rfl)

/-- C5: the reconnect delay before attempt n (counting consecutive
failed or closed cycles from 0) is min(1000 * 2^n, 30000) ms — the
sequence 1000, 2000, 4000, 8000, 16000, 30000, 30000, ...: each
`scheduleReconnect` with a stored URL logs exactly that delay and
increments the attempt counter, every close handler firing with a
stored URL increments the counter, every open handler firing resets it
to 0, and a concrete run of seven consecutive failed cycles logs
exactly the capped doubling sequence. -/
theorem reconnect_backoff_policy :
    (∀ s u, s.wsUrl = some u →
      (scheduleReconnect s).scheduledDelays =
        s.scheduledDelays ++ [reconnectDelay s.reconnectAttempts] ∧
      (scheduleReconnect s).reconnectAttempts = s.reconnectAttempts + 1) ∧
    ((List.range 7).map reconnectDelay =
      [1000, 2000, 4000, 8000, 16000, 30000, 30000]) ∧
    (∀ s sid u, s.wsUrl = some u →
      (step s (.closeEvt sid)).reconnectAttempts = s.reconnectAttempts + 1) ∧
    (∀ s sid, (step s (.openEvt sid)).reconnectAttempts = 0) ∧
    ((runChecked initChannel backoffTrace).map (fun s => s.scheduledDelays) =
      some [1000, 2000, 4000, 8000, 16000, 30000, 30000]) :=
  ⟨scheduleReconnect_spec, by decide, closeEvt_increments, openEvt_resets, by decide⟩

/-- C5 witness: on a fresh channel with a stored URL, scheduling logs
delay 1000 and sets the counter to 1; a close handler firing bumps the
counter to 1; an open handler firing resets it to 0. -/
theorem reconnect_backoff_policy_witness :
    (scheduleReconnect chanU).scheduledDelays = [1000] ∧
    (scheduleReconnect chanU).reconnectAttempts = 1 ∧
    (step chanU (.closeEvt 0)).reconnectAttempts = 1 ∧
    (step chanU (.openEvt 0)).reconnectAttempts = 0 := by
  have h := reconnect_backoff_policy
  have h1 := h.1 chanU "ws://localhost:8080" (by rfl)
  have h3 := h.2.2.1 chanU 0 "ws://localhost:8080" (by rfl)
  have h4 := h.2.2.2.1 chanU 0
  exact ⟨h1.1, h1.2, h3, h4⟩

/-- C6: after an explicit disconnect (the wsDisconnect control
message, which clears the stored URL and runs `disconnectWebSocket`),
no reconnect is ever scheduled by any sequence of subsequent events
that does not contain a connect request: the log of scheduled delays
and the timer-creation counter stay exactly as the disconnect left
them — in particular a close event arriving later from the stale
socket schedules nothing. -/
theorem no_reconnect_after_disconnect (s s' : Channel) (evs : List Ev)
    (hnc : ∀ e ∈ evs, isConnectEv e = false)
    (hrun : runChecked (step s .wsDisconnect) evs = some s') :
    s'.scheduledDelays = (step s .wsDisconnect).scheduledDelays ∧
    s'.nextTimer = (step s .wsDisconnect).nextTimer := by
  apply runChecked_no_url evs _ _ ?_ hnc hrun
  have h2 := disconnectWebSocket_preserves { s with wsUrl := none }
  simpa [step] using h2.1

/-- C6 witness: connect and open a socket, disconnect explicitly, then
let the stale socket's close event fire: no delay is logged and no
timer is created. -/
theorem no_reconnect_after_disconnect_witness :
    chanAfterStaleClose.scheduledDelays = (step chanOpen Ev.wsDisconnect).scheduledDelays ∧
    chanAfterStaleClose.nextTimer = (step chanOpen Ev.wsDisconnect).nextTimer :=
  no_reconnect_after_disconnect chanOpen chanAfterStaleClose [.closeEvt 0]
    (by decide) (by decide)

/-- C7: the claimed invariant — at most one live connection and at
most one pending reconnect timer in every reachable state — is
violated by the code on a reachable interleaving.  Along `dupTrace`
(every event enabled when it fires): after the first seven events
sockets 1 and 2 are both OPEN, because the stale close handler of
socket 0 nulled the shared `ws` variable while socket 1 was open and
the reconnect it scheduled then opened socket 2; after all nine events
two reconnect timers are pending simultaneously, because
`scheduleReconnect` overwrites the timer handle without cancelling the
previous timer. -/
theorem channel_stale_handlers_break_invariant :
    (runChecked initChannel (dupTrace.take 7)).map countOpenSocks = some 2 ∧
    (runChecked initChannel dupTrace).map (fun s => s.pendingTimers.length) = some 2 := by
  constructor
  · decide
  · decide

/-- C8: every dispatched command produces exactly one result message,
of type result and carrying the command's request identifier, sent
over the channel as part of the dispatch trace; when the switch raises
an exception, the message body is success false with the exception's
message — the handler itself is a total function, so no command
failure terminates the channel. -/
theorem command_yields_one_result (o : Oracles) (c : Command) :
    countSends (handleWsCommand o c).1 = 1 ∧
    (handleWsCommand o c).2.type = "result" ∧
    (handleWsCommand o c).2.requestId = c.requestId ∧
    DispatchEv.sendMessage (handleWsCommand o c).2 ∈ (handleWsCommand o c).1 ∧
    (∀ msg, (dispatchCore o c).2 = .error msg →
      (handleWsCommand o c).2.body = { success := false, error := some msg }) := by
  have hns := dispatchCore_no_sends o c
  unfold handleWsCommand
  revert hns
  cases hd : dispatchCore o c with
  | mk evs r =>
    intro hns
    simp only at hns
    cases r with
    | ok res =>
      refine ⟨?_, rfl, rfl, ?_, ?_⟩
      · simp [countSends_append, hns, countSends]
      · simp
      · intro msg h
        simp at h
    | error msg =>
      refine ⟨?_, rfl, rfl, ?_, ?_⟩
      · simp [countSends_append, hns, countSends]
      · simp
      · intro msg' h
        simp at h
        subst h
        rfl

/-- C8 witness: a getElements command whose in-page execution rejects
with message boom yields exactly one result message with the same
request id r7 and body success false, error boom. -/
theorem command_yields_one_result_witness :
    countSends (handleWsCommand oExecFail cmdGetElements).1 = 1 ∧
    (handleWsCommand oExecFail cmdGetElements).2.requestId = "r7" ∧
    (handleWsCommand oExecFail cmdGetElements).2.body =
      { success := false, error := some "boom" } := by
  have h := command_yields_one_result oExecFail cmdGetElements
  exact ⟨h.1, h.2.2.1, h.2.2.2.2 "boom" (by rfl)⟩

/-- C9: a click command with neither a selector nor both coordinates
produces the result success false, error No selector or coordinates
provided, with an empty action trace (no page action is invoked); a
navigate command without a url is answered by the single result
message type result, same requestId, success false, error No URL
provided, with no tab update performed. -/
theorem missing_param_commands (o : Oracles) (c c2 : Command)
    (hclick : c.type = "click") (hsel : c.selector = none) (hxy : c.x = none ∨ c.y = none)
    (hnav : c2.type = "navigate") (hurl : c2.url = none) :
    dispatchCore o c =
      ([], .ok { success := false, error := some "No selector or coordinates provided" }) ∧
    handleWsCommand o c2 =
      ([.sendMessage { type := "result", requestId := c2.requestId,
                       body := { success := false, error := some "No URL provided" } }],
       { type := "result", requestId := c2.requestId,
         body := { success := false, error := some "No URL provided" } }) := by
  constructor
  · rcases hxy with hx | hy
    · simp [dispatchCore, hclick, hsel, hx]
    · simp [dispatchCore, hclick, hsel, hy]
  · simp [handleWsCommand, dispatchCore, hnav, hurl]

/-- C9 witness: the spec's scenario — click with no selector and no
coordinates, and navigate with requestId r1, tabId 7 and no url. -/
theorem missing_param_commands_witness :
    dispatchCore oExecFail cmdClickEmpty =
      ([], .ok { success := false, error := some "No selector or coordinates provided" }) ∧
    handleWsCommand oExecFail cmdNavNoUrl =
      ([.sendMessage { type := "result", requestId := "r1",
                       body := { success := false, error := some "No URL provided" } }],
       { type := "result", requestId := "r1",
         body := { success := false, error := some "No URL provided" } }) :=
  missing_param_commands oExecFail cmdClickEmpty cmdNavNoUrl rfl rfl (Or.inl rfl) rfl rfl

/-- C10: a remote screenshot command, once the target tab was
activated, makes exactly one capture call, after the activation and a
fixed 100 ms settle delay, with no retry of any kind; a successful
capture produces the body success true with the base64 payload of the
data URL, and any capture failure — including a rate-limit rejection —
is returned as the body success false with the message (the switch
returns it as a normal result rather than raising). -/
theorem screenshot_single_capture (o : Oracles) (c : Command) (hty : c.type = "screenshot") :
    (o.activate c.tabId = .ok () →
      (handleWsCommand o c).1 =
        [.activateTab c.tabId, .sleepMs 100, .captureCall,
         .sendMessage (handleWsCommand o c).2] ∧
      countCaptures (handleWsCommand o c).1 = 1) ∧
    (∀ d, o.activate c.tabId = .ok () → o.capture = .ok d →
      (handleWsCommand o c).2.body = { success := true, image := splitBase64 d }) ∧
    (∀ m, o.activate c.tabId = .ok () → o.capture = .error m →
      (handleWsCommand o c).2.body = { success := false, error := some m } ∧
      (dispatchCore o c).2 = .ok { success := false, error := some m }) := by
  refine ⟨?_, ?_, ?_⟩
  · intro hact
    rcases hcap : o.capture with d | m
    · constructor
      · simp [handleWsCommand, dispatchCore, captureTabScreenshot, hty, hact, hcap]
      · simp [handleWsCommand, dispatchCore, captureTabScreenshot, hty, hact, hcap,
              countCaptures]
    · constructor
      · simp [handleWsCommand, dispatchCore, captureTabScreenshot, hty, hact, hcap]
      · simp [handleWsCommand, dispatchCore, captureTabScreenshot, hty, hact, hcap,
              countCaptures]
  · intro d hact hcap
    simp [handleWsCommand, dispatchCore, captureTabScreenshot, hty, hact, hcap]
  · intro m hact hcap
    constructor
    · simp [handleWsCommand, dispatchCore, captureTabScreenshot, hty, hact, hcap]
    · simp [dispatchCore, captureTabScreenshot, hty, hact, hcap]

/-- C10 witness: the screenshot command for tab 5: with all-ok oracles
the trace is activate, sleep 100 ms, one capture, one send, and the
body carries the base64 payload QUJD; with the rate-limited capture
oracle the body is success false with the rate-limit message after
exactly one capture call. -/
theorem screenshot_single_capture_witness :
    (handleWsCommand oAllOk cmdShot).1 =
      [.activateTab 5, .sleepMs 100, .captureCall,
       .sendMessage (handleWsCommand oAllOk cmdShot).2] ∧
    (handleWsCommand oAllOk cmdShot).2.body =
      { success := true, image := some "QUJD" } ∧
    (handleWsCommand oCapRateLimited cmdShot).2.body =
      { success := false,
        error := some "MAX_CAPTURE_VISIBLE_TAB_CALLS_PER_SECOND quota exceeded" } ∧
    countCaptures (handleWsCommand oCapRateLimited cmdShot).1 = 1 := by
  have hOk := screenshot_single_capture oAllOk cmdShot rfl
  have hRl := screenshot_single_capture oCapRateLimited cmdShot rfl
  exact ⟨(hOk.1 rfl).1, hOk.2.1 "data:image/jpeg;base64,QUJD" rfl rfl,
         (hRl.2.2 _ rfl rfl).1, (hRl.1 rfl).2⟩

end Snapper
